import Mathlib

/-!
Verification development for the sdk-mx-data-nft client library.

The embedding models the interaction-encoding layer of the repository:
transaction construction (DataNftMarket, NftMinter, SftMinter, DataNftMinter),
query-result parsing, attribute decoding, and the Data Marshal access flows
of the DataNft class. Addresses and token identifiers are modelled as
strings; typed ABI argument values are modelled by the Arg inductive, which
records both the constructor used by the source (TokenIdentifierValue,
U64Value, BigUIntValue, AddressValue, StringValue, BooleanValue) and the
carried value, so that argument order and typing are captured exactly.
-/

namespace DataNftSdk

/-- Typed ABI call argument, mirroring the sdk-core value classes used by the
source when building a ContractCallPayloadBuilder argument list. -/
inductive Arg where
  | tokenIdentifier (s : String)
  | u64 (n : Nat)
  | bigUInt (n : Int)
  | addr (a : String)
  | str (s : String)
  | boolean (b : Bool)
deriving DecidableEq

/-- Encoded function-call payload: the function set by setFunction and the
argument list accumulated by addArg / setArgs, in order. -/
structure Payload where
  function : String
  args : List Arg
deriving DecidableEq

/-- Unsigned transaction, mirroring the fields the source passes to the
sdk-core Transaction constructor. When the source omits the value field
(the mint transactions), the sdk-core default of 0 applies and the model
writes 0 explicitly. -/
structure Tx where
  value : Nat
  data : Payload
  receiver : String
  sender : String
  gasLimit : Nat
  chainID : String
deriving DecidableEq

/-! ## DataNftMarket payload builders (src/datanft-market source, DataNftMarket class)

Each builder takes the relevant instance fields (contract address and chain
id) as explicit parameters. TypeScript default parameter values are modelled
with Option arguments resolved by getD, so that the defaulting behaviour is
part of the model. -/

/-- DataNftMarket.addOffer: ESDTNFTTransfer-wrapped call addressed to the
sender itself; the minimum payment token amount defaults to 0 when the
caller leaves it unspecified. -/
def addOffer (contractAddress chainID : String) (senderAddress : String)
    (dataNftIdentifier : String) (dataNftNonce : Nat) (dataNftAmount : Int)
    (paymentTokenIdentifier : String) (paymentTokenNonce : Nat)
    (paymentTokenAmount : Nat) (minimumPaymentTokenAmount : Option Nat) : Tx :=
  { value := 0
    data :=
      { function := "ESDTNFTTransfer"
        args :=
          [ Arg.tokenIdentifier dataNftIdentifier,
            Arg.u64 dataNftNonce,
            Arg.bigUInt dataNftAmount,
            Arg.addr contractAddress,
            Arg.str "addOffer",
            Arg.tokenIdentifier paymentTokenIdentifier,
            Arg.u64 paymentTokenNonce,
            Arg.u64 paymentTokenAmount,
            Arg.u64 (minimumPaymentTokenAmount.getD 0),
            Arg.bigUInt dataNftAmount ] }
    receiver := senderAddress
    sender := senderAddress
    gasLimit := 12000000
    chainID := chainID }

/-- DataNftMarket.cancelOffer: direct call to the marketplace contract. The
sendFundsBackToOwner flag defaults to true when unspecified. -/
def cancelOffer (contractAddress chainID : String) (senderAddress : String)
    (offerId : Nat) (sendFundsBackToOwner : Option Bool) : Tx :=
  { value := 0
    data :=
      { function := "cancelOffer"
        args := [Arg.u64 offerId, Arg.boolean (sendFundsBackToOwner.getD true)] }
    receiver := contractAddress
    sender := senderAddress
    gasLimit := 10000000
    chainID := chainID }

/-- DataNftMarket.changeOfferPrice: direct call to the marketplace contract;
the new minimum payment token amount defaults to 0. -/
def changeOfferPrice (contractAddress chainID : String) (senderAddress : String)
    (offerId : Nat) (newPrice : Nat) (newMinimumPaymentTokenAmount : Option Nat) : Tx :=
  { value := 0
    data :=
      { function := "changeOfferPrice"
        args :=
          [ Arg.u64 offerId,
            Arg.u64 newPrice,
            Arg.u64 (newMinimumPaymentTokenAmount.getD 0) ] }
    receiver := contractAddress
    sender := senderAddress
    gasLimit := 10000000
    chainID := chainID }

/-- DataNftMarket.withdrawCancelledOffer: direct call to the marketplace
contract with a 12,000,000 gas limit. -/
def withdrawCancelledOffer (contractAddress chainID : String)
    (senderAddress : String) (offerId : Nat) : Tx :=
  { value := 0
    data := { function := "withdrawCancelledOffer", args := [Arg.u64 offerId] }
    receiver := contractAddress
    sender := senderAddress
    gasLimit := 12000000
    chainID := chainID }

/-! ## NftMinter payload builders (src/nft-minter.ts) -/

/-- NftMinter.pauseContract: direct setIsPaused(true) call. -/
def pauseContract (contractAddress chainID : String) (senderAddress : String) : Tx :=
  { value := 0
    data := { function := "setIsPaused", args := [Arg.boolean true] }
    receiver := contractAddress
    sender := senderAddress
    gasLimit := 10000000
    chainID := chainID }

/-- NftMinter.unpauseContract: direct setIsPaused(false) call. -/
def unpauseContract (contractAddress chainID : String) (senderAddress : String) : Tx :=
  { value := 0
    data := { function := "setIsPaused", args := [Arg.boolean false] }
    receiver := contractAddress
    sender := senderAddress
    gasLimit := 10000000
    chainID := chainID }

/-- NftMinter.setTransferRole: direct role-management call. -/
def setTransferRole (contractAddress chainID : String) (senderAddress : String)
    (address : String) : Tx :=
  { value := 0
    data := { function := "setTransferRole", args := [Arg.addr address] }
    receiver := contractAddress
    sender := senderAddress
    gasLimit := 10000000
    chainID := chainID }

/-- NftMinter.unsetTransferRole: direct role-management call. -/
def unsetTransferRole (contractAddress chainID : String) (senderAddress : String)
    (address : String) : Tx :=
  { value := 0
    data := { function := "unsetTransferRole", args := [Arg.addr address] }
    receiver := contractAddress
    sender := senderAddress
    gasLimit := 10000000
    chainID := chainID }

/-- NftMinter.freeze: direct freeze call. -/
def freeze (contractAddress chainID : String) (senderAddress : String)
    (freezeAddress : String) : Tx :=
  { value := 0
    data := { function := "freeze", args := [Arg.addr freezeAddress] }
    receiver := contractAddress
    sender := senderAddress
    gasLimit := 10000000
    chainID := chainID }

/-- NftMinter.unfreeze: direct unfreeze call. -/
def unfreeze (contractAddress chainID : String) (senderAddress : String)
    (unfreezeAddress : String) : Tx :=
  { value := 0
    data := { function := "unfreeze", args := [Arg.addr unfreezeAddress] }
    receiver := contractAddress
    sender := senderAddress
    gasLimit := 10000000
    chainID := chainID }

/-- NftMinter.wipeSingleNFT: direct wipe call. -/
def wipeSingleNFT (contractAddress chainID : String) (senderAddress : String)
    (nonce : Nat) (wipeAddress : String) : Tx :=
  { value := 0
    data := { function := "wipeSingleNFT", args := [Arg.u64 nonce, Arg.addr wipeAddress] }
    receiver := contractAddress
    sender := senderAddress
    gasLimit := 10000000
    chainID := chainID }

/-- NftMinter.setAdministrator: direct admin call. -/
def setAdministrator (contractAddress chainID : String) (senderAddress : String)
    (newAdministrator : String) : Tx :=
  { value := 0
    data := { function := "setAdministrator", args := [Arg.addr newAdministrator] }
    receiver := contractAddress
    sender := senderAddress
    gasLimit := 10000000
    chainID := chainID }

/-- NftMinter.whitelist: direct setWhiteListSpots call. The third TypeScript
parameter is an extra gas amount added to the base 10,000,000 gas limit; it
defaults to 0 when unspecified. -/
def whitelist (contractAddress chainID : String) (senderAddress : String)
    (addresses : List String) (gasLimitExtra : Option Nat) : Tx :=
  { value := 0
    data := { function := "setWhiteListSpots", args := addresses.map Arg.addr }
    receiver := contractAddress
    sender := senderAddress
    gasLimit := 10000000 + gasLimitExtra.getD 0
    chainID := chainID }

/-- NftMinter.delist: direct delist call; like whitelist, the gas limit is
the base 10,000,000 plus the caller-supplied extra gas parameter. -/
def delist (contractAddress chainID : String) (senderAddress : String)
    (addresses : List String) (gasLimitExtra : Nat) : Tx :=
  { value := 0
    data := { function := "delist", args := addresses.map Arg.addr }
    receiver := contractAddress
    sender := senderAddress
    gasLimit := 10000000 + gasLimitExtra
    chainID := chainID }

/-! ## Mint transaction (SftMinter.mint in src/sft-minter.ts and
DataNftMinter.mint in src/interfaces.ts)

Both classes build the final mint transaction identically. The model takes
the values that are resolved before the payload is built: the image and
metadata IPFS urls and the encrypted stream url are produced by external
collaborators earlier in the method, and the anti-spam token identifier has
already been defaulted from the environment configuration when absent. -/

/-- Final transaction construction of SftMinter.mint / DataNftMinter.mint:
when antiSpamTax is greater than 0 the payload is an ESDTTransfer-wrapped
mint call, otherwise it is a direct mint call; the receiver is the minter
contract address and the gas limit 60,000,000 in both branches. -/
def mintTx (contractAddress chainID : String) (senderAddress : String)
    (tokenName imageOnIpfsUrl metadataOnIpfsUrl dataMarshalUrl
      dataNftStreamUrlEncrypted dataPreviewUrl : String)
    (royalties supply : Nat) (datasetTitle datasetDescription : String)
    (antiSpamTax : Int) (antiSpamTokenIdentifier : String) : Tx :=
  let trailingArgs : List Arg :=
    [ Arg.str tokenName,
      Arg.str imageOnIpfsUrl,
      Arg.str metadataOnIpfsUrl,
      Arg.str dataMarshalUrl,
      Arg.str dataNftStreamUrlEncrypted,
      Arg.str dataPreviewUrl,
      Arg.u64 royalties,
      Arg.u64 supply,
      Arg.str datasetTitle,
      Arg.str datasetDescription ]
  let data : Payload :=
    if antiSpamTax > 0 then
      { function := "ESDTTransfer"
        args :=
          Arg.tokenIdentifier antiSpamTokenIdentifier ::
            Arg.bigUInt antiSpamTax :: Arg.str "mint" :: trailingArgs }
    else
      { function := "mint", args := trailingArgs }
  { value := 0
    data := data
    receiver := contractAddress
    sender := senderAddress
    gasLimit := 60000000
    chainID := chainID }

/-! ## Query-result parsing (DataNftMarket and DataNftMinter view methods)

A query round-trip ends with a parsed response carrying a return code and a
first value; the model takes that parsed response as input and embeds the
branching that follows parseQueryResponse in the source. -/

/-- Parsed contract query response: the success flag and textual form of the
return code, and the decoded first value of the response. -/
structure ParsedQueryResponse (α : Type) where
  returnCodeIsSuccess : Bool
  returnCodeText : String
  firstValue : α
deriving DecidableEq

/-- Errors raised by the library that the embedded claims inspect. -/
inductive SdkError where
  | contractQuery (operation : String) (returnCode : String)
  | decodeAttributes (message : String)
deriving DecidableEq

/-- Raw decoded offer value as produced by the ABI layer before parseOffer
runs: numeric fields are already integers, the owner is the textual bech32
form of the decoded address and the amounts are arbitrary-precision decimal
strings. -/
structure RawOffer where
  index : Nat
  owner : String
  offered_token_identifier : String
  offered_token_nonce : Nat
  offered_token_amount : String
  wanted_token_identifier : String
  wanted_token_nonce : Nat
  wanted_token_amount : String
  quantity : Nat
deriving DecidableEq

/-- Marketplace Offer domain record (src/interfaces.ts). -/
structure Offer where
  index : Nat
  owner : String
  offeredTokenIdentifier : String
  offeredTokenNonce : Nat
  offeredTokenAmount : String
  wantedTokenIdentifier : String
  wantedTokenNonce : Nat
  wantedTokenAmount : String
  quantity : Nat
deriving DecidableEq

/-- Modelled from the spec: parseOffer (src/common/utils, not among the
provided sources) flattens a raw decoded offer into the Offer record,
converting indices, nonces and quantities to integers, the owner address to
its textual form, and keeping amounts as decimal strings. -/
def parseOffer (o : RawOffer) : Offer :=
  { index := o.index
    owner := o.owner
    offeredTokenIdentifier := o.offered_token_identifier
    offeredTokenNonce := o.offered_token_nonce
    offeredTokenAmount := o.offered_token_amount
    wantedTokenIdentifier := o.wanted_token_identifier
    wantedTokenNonce := o.wanted_token_nonce
    wantedTokenAmount := o.wanted_token_amount
    quantity := o.quantity }

/-- DataNftMarket.viewAddressListedOffers, from the point where the query
response has been parsed: on success the variadic first value is mapped
through parseOffer; on failure an ErrContractQuery carrying the operation
name and the return code text is raised and nothing is decoded. -/
def viewAddressListedOffersParse (r : ParsedQueryResponse (List RawOffer)) :
    Except SdkError (List Offer) :=
  if r.returnCodeIsSuccess then
    Except.ok (r.firstValue.map parseOffer)
  else
    Except.error (SdkError.contractQuery "viewAddressListedOffers" r.returnCodeText)

/-- Marketplace requirements domain record (src/interfaces.ts). -/
structure MarketplaceRequirements where
  acceptedTokens : List String
  acceptedPayments : List String
  maximumPaymentFees : List String
  buyerTaxPercentageDiscount : Nat
  sellerTaxPercentageDiscount : Nat
  buyerTaxPercentage : Nat
  sellerTaxPercentage : Nat
deriving DecidableEq

/-- Raw decoded requirements struct of the marketplace viewRequirements
query: fee and percentage fields are arbitrary-precision numbers, modelled
as Nat; toFixed(0) on a fee becomes decimal-string rendering. -/
structure RawRequirements where
  accepted_tokens : List String
  accepted_payments : List String
  maximum_payment_fees : List Nat
  discount_fee_percentage_buyer : Nat
  discount_fee_percentage_seller : Nat
  percentage_cut_from_buyer : Nat
  percentage_cut_from_seller : Nat
deriving DecidableEq

/-- DataNftMarket.viewRequirements, after query-response parsing. -/
def viewRequirementsParse (r : ParsedQueryResponse RawRequirements) :
    Except SdkError MarketplaceRequirements :=
  if r.returnCodeIsSuccess then
    Except.ok
      { acceptedTokens := r.firstValue.accepted_tokens
        acceptedPayments := r.firstValue.accepted_payments
        maximumPaymentFees := r.firstValue.maximum_payment_fees.map (fun v => toString v)
        buyerTaxPercentageDiscount := r.firstValue.discount_fee_percentage_buyer
        sellerTaxPercentageDiscount := r.firstValue.discount_fee_percentage_seller
        buyerTaxPercentage := r.firstValue.percentage_cut_from_buyer
        sellerTaxPercentage := r.firstValue.percentage_cut_from_seller }
  else
    Except.error (SdkError.contractQuery "viewRequirements" r.returnCodeText)

/-- DataNftMarket.viewContractPauseState, after query-response parsing. -/
def viewContractPauseStateParse (r : ParsedQueryResponse Bool) :
    Except SdkError Bool :=
  if r.returnCodeIsSuccess then
    Except.ok r.firstValue
  else
    Except.error (SdkError.contractQuery "viewContractPauseState" r.returnCodeText)

/-- Minter requirements domain record (src/interfaces.ts). -/
structure MinterRequirements where
  antiSpamTaxValue : Nat
  addressFrozen : Bool
  frozenNonces : List Nat
  contractPaused : Bool
  userWhitelistedForMint : Bool
  lastUserMintTime : Nat
  maxRoyalties : Nat
  maxSupply : Nat
  minRoyalties : Nat
  mintTimeLimit : Nat
  numberOfMintsForUser : Nat
  totalNumberOfMints : Nat
  contractWhitelistEnabled : Bool
deriving DecidableEq

/-- Raw decoded getUserDataOut struct of the minter contract. -/
structure RawUserDataOut where
  anti_spam_tax_value : Nat
  is_paused : Bool
  max_royalties : Nat
  min_royalties : Nat
  max_supply : Nat
  mint_time_limit : Nat
  last_mint_time : Nat
  is_whitelisted : Bool
  whitelist_enabled : Bool
  minted_per_user : Nat
  total_minted : Nat
  frozen : Bool
  frozen_nonces : List Nat
deriving DecidableEq

/-- DataNftMinter.viewMinterRequirements, after query-response parsing: on
success the struct fields are name-mapped into MinterRequirements; on
failure an ErrContractQuery carrying the operation name and return code
text is raised. -/
def viewMinterRequirementsParse (r : ParsedQueryResponse RawUserDataOut) :
    Except SdkError MinterRequirements :=
  if r.returnCodeIsSuccess then
    Except.ok
      { antiSpamTaxValue := r.firstValue.anti_spam_tax_value
        contractPaused := r.firstValue.is_paused
        maxRoyalties := r.firstValue.max_royalties
        minRoyalties := r.firstValue.min_royalties
        maxSupply := r.firstValue.max_supply
        mintTimeLimit := r.firstValue.mint_time_limit
        lastUserMintTime := r.firstValue.last_mint_time
        userWhitelistedForMint := r.firstValue.is_whitelisted
        contractWhitelistEnabled := r.firstValue.whitelist_enabled
        numberOfMintsForUser := r.firstValue.minted_per_user
        totalNumberOfMints := r.firstValue.total_minted
        addressFrozen := r.firstValue.frozen
        frozenNonces := r.firstValue.frozen_nonces }
  else
    Except.error (SdkError.contractQuery "viewMinterRequirements" r.returnCodeText)

/-! ## Attribute decoding (DataNft.decodeAttributes) -/

/-- Decoded DataNftAttributes ABI struct, as handed back by the binary
codec: creation_time is the Unix-seconds integer stored on chain. -/
structure DataNftAttributes where
  data_preview_url : String
  data_stream_url : String
  data_marshal_url : String
  creator : String
  creation_time : Nat
  description : String
  title : String
deriving DecidableEq

/-- Result record of DataNft.decodeAttributes: exactly the seven fields the
method returns. A JavaScript Date is modelled by its millisecond timestamp. -/
structure DecodedAttributesOut where
  dataPreview : String
  dataStream : String
  dataMarshal : String
  creator : String
  creationTime : Nat
  description : String
  title : String
deriving DecidableEq

/-- DataNft.decodeAttributes: the base64 decode and ABI-struct decode are
performed by the external binary codec, whose outcome (a decoded struct or
a failure message) is the input of the model; the try/catch of the method
turns any codec failure into an ErrDecodeAttributes wrapping the message,
and on success builds the seven-field record with creationTime equal to the
Unix-seconds creation_time times 1000. -/
def decodeAttributes (decoded : Except String DataNftAttributes) :
    Except SdkError DecodedAttributesOut :=
  match decoded with
  | Except.ok d =>
      Except.ok
        { dataPreview := d.data_preview_url
          dataStream := d.data_stream_url
          dataMarshal := d.data_marshal_url
          creator := d.creator
          creationTime := d.creation_time * 1000
          description := d.description
          title := d.title }
  | Except.error m => Except.error (SdkError.decodeAttributes m)

/-! ## Data Marshal access flows (DataNft class)

Strings stand for the JavaScript strings involved; a JavaScript object used
as a header lookup map is modelled by an association list whose keys are
distinct and kept in insertion order. Optional parameters of the two view
methods are Option values (undefined = none); the response of the single
fetch call each flow performs is an oracle input of the model. -/

/-- Base64 alphabet used by window.btoa. -/
def base64Chars : List Char :=
  "ABCDEFGHIJKLMNOPQRSTUVWXYZabcdefghijklmnopqrstuvwxyz0123456789+/".toList

/-- Base64-encode a byte list, padding with = as btoa does. -/
def base64EncodeBytes : List Nat → List Char
  | [] => []
  | [b1] =>
      [ base64Chars.getD (b1 / 4) 'A',
        base64Chars.getD (b1 % 4 * 16) 'A', '=', '=' ]
  | [b1, b2] =>
      [ base64Chars.getD (b1 / 4) 'A',
        base64Chars.getD (b1 % 4 * 16 + b2 / 16) 'A',
        base64Chars.getD (b2 % 16 * 4) 'A', '=' ]
  | b1 :: b2 :: b3 :: rest =>
      base64Chars.getD (b1 / 4) 'A' ::
        base64Chars.getD (b1 % 4 * 16 + b2 / 16) 'A' ::
          base64Chars.getD (b2 % 16 * 4 + b3 / 64) 'A' ::
            base64Chars.getD (b3 % 64) 'A' :: base64EncodeBytes rest

/-- window.btoa: base64 of the latin1 code units of the string; the origin
lists passed through it are plain ASCII. -/
def btoa (s : String) : String :=
  String.mk (base64EncodeBytes (s.toList.map Char.toNat))

/-- Modelled from the spec: numberToPaddedHex (src/common/utils, not among
the provided sources) renders the nonce in hexadecimal, zero-padding to an
even number of digits, to form the NFTId suffix. -/
def numberToPaddedHex (n : Nat) : String :=
  let h := String.mk (Nat.toDigits 16 n)
  if h.length % 2 = 1 then "0" ++ h else h

/-- Lookup of a key in a JavaScript-object-as-association-list; none models
an undefined property. -/
def objGet (m : List (String × String)) (k : String) : Option String :=
  (m.find? (fun kv => kv.1 = k)).map Prod.snd

/-- Network configuration state of the DataNft class, reduced to the field
the marshal flows read. -/
structure NetworkConfig where
  chainID : String
deriving DecidableEq

/-- Result of a marshal access fetch: the ok flag and numeric status of the
HTTP response, the content-type header when present, and the body (the blob
both flows read, and also read as text on the error path). -/
structure MarshalResponse where
  ok : Bool
  status : Nat
  contentType : Option String
  bodyText : String
deriving DecidableEq

/-- Discriminated outcome record both marshal flows return
(ViewDataReturnType in src/interfaces.ts); the blob is modelled by the body
text it carries. -/
structure ViewDataReturnType where
  data : Option String
  contentType : String
  error : Option String
deriving DecidableEq

/-- Result shape of the validation gate. -/
structure ValidationResult where
  allPassed : Bool
  validationMessages : List String
deriving DecidableEq

/-- Signable message handed to viewData, reduced to the two members the
method reads: the signature (hex form) and the address (hex form), each
possibly absent. -/
structure SignableMessage where
  signatureHex : Option String
  addressHex : Option String
deriving DecidableEq

/-- Ephemeral sign-result struct built inside viewData. -/
structure SignResult where
  signature : String
  addrInHex : String
  success : Bool
  exception : String
deriving DecidableEq

/-- Parameter object of DataNft.viewData. The two mandatory parameters are
Option values because the validation gate checks their presence. -/
structure ViewDataParams where
  signedMessage : Option String
  signableMessage : Option SignableMessage
  stream : Option Bool
  fwdAllHeaders : Option Bool
  fwdHeaderKeys : Option String
  fwdHeaderMapLookup : Option (List (String × String))
  nestedIdxToStream : Option Nat
deriving DecidableEq

/-- Parameter object of DataNft.viewDataViaMVXNativeAuth. -/
structure NativeAuthParams where
  mvxNativeAuthOrigins : Option (List String)
  mvxNativeAuthMaxExpirySeconds : Option Nat
  fwdHeaderMapLookup : Option (List (String × String))
  fwdHeaderKeys : Option String
  fwdAllHeaders : Option Bool
  stream : Option Bool
  nestedIdxToStream : Option Nat
deriving DecidableEq

/-- Bearer check on the header lookup map: an authorization entry whose
value begins with the Bearer prefix (stated on the character lists of the
strings). -/
def hasBearerAuthHeader (m : List (String × String)) : Bool :=
  match objGet m "authorization" with
  | some v => "Bearer".toList.isPrefixOf v.toList
  | none => false

/-- Modelled from the spec: validateSpecificParamsViewData
(src/common/utils, not among the provided sources) for the signature flow,
with mandatory list [signedMessage, signableMessage]: each missing
mandatory parameter adds a message, and all violations are collected
instead of failing on the first. -/
def validateViewData (p : ViewDataParams) : ValidationResult :=
  let msgs :=
    (if p.signedMessage.isNone then ["signedMessage is mandatory"] else []) ++
      (if p.signableMessage.isNone then ["signableMessage is mandatory"] else [])
  { allPassed := msgs.isEmpty, validationMessages := msgs }

/-- Modelled from the spec: validateSpecificParamsViewData for the
native-auth flow, with mandatory list [mvxNativeAuthOrigins,
mvxNativeAuthMaxExpirySeconds, fwdHeaderMapLookup] and the requirement that
the header lookup map holds a bearer authorization entry; violations are
collected into the message list. -/
def validateNativeAuth (p : NativeAuthParams) : ValidationResult :=
  let msgs :=
    (if p.mvxNativeAuthOrigins.isNone then ["mvxNativeAuthOrigins is mandatory"] else []) ++
      (if p.mvxNativeAuthMaxExpirySeconds.isNone then
        ["mvxNativeAuthMaxExpirySeconds is mandatory"] else []) ++
        (if p.fwdHeaderMapLookup.isNone then ["fwdHeaderMapLookup is mandatory"] else []) ++
          (if hasBearerAuthHeader (p.fwdHeaderMapLookup.getD []) then [] else
            ["fwdHeaderMapLookup must have a bearer authorization header"])
  { allPassed := msgs.isEmpty, validationMessages := msgs }

/-- Sign-result computation of viewData: when the signable message carries
both a signature and an address the hex forms are taken over, otherwise the
struct keeps empty strings and records the failure. -/
def computeSignResult (m : Option SignableMessage) : SignResult :=
  match m with
  | some sm =>
      match sm.signatureHex, sm.addressHex with
      | some sh, some ah =>
          { signature := sh, addrInHex := ah, success := true, exception := "" }
      | _, _ =>
          { signature := "", addrInHex := "", success := false, exception := "Some Error" }
  | none =>
      { signature := "", addrInHex := "", success := false, exception := "Some Error" }

/-- Query-flag suffix shared verbatim by both flows: streamInLine when
stream is requested, fwdAllHeaders when set, and the nested stream index
when given. -/
def optionalParamsSuffix (stream fwdAllHeaders : Option Bool)
    (nestedIdxToStream : Option Nat) : String :=
  (match stream with
    | some b => if b then "&streamInLine=1" else ""
    | none => "") ++
    (match fwdAllHeaders with
      | some b => if b then "&fwdAllHeaders=1" else ""
      | none => "") ++
      (match nestedIdxToStream with
        | some n => "&nestedIdxToStream=" ++ toString n
        | none => "")

/-- Access url of DataNft.viewData, with the inline devnet chain-id rewrite
and the optional query flags appended in source order (fwdHeaderKeys last). -/
def viewDataUrl (dataMarshal collection : String) (nonce : Nat)
    (chainID : String) (p : ViewDataParams) (sr : SignResult) : String :=
  dataMarshal ++ "/access?nonce=" ++ p.signedMessage.getD "" ++ "&NFTId=" ++
      collection ++ "-" ++ numberToPaddedHex nonce ++ "&signature=" ++
      sr.signature ++ "&chainId=" ++
      (if chainID = "D" then "ED" else chainID) ++ "&accessRequesterAddr=" ++
      sr.addrInHex ++
    optionalParamsSuffix p.stream p.fwdAllHeaders p.nestedIdxToStream ++
    (match p.fwdHeaderKeys with
      | some k => "&fwdHeaderKeys=" ++ k
      | none => "")

/-- Fetch headers of DataNft.viewData: set only when fwdHeaderKeys is given
and the header lookup map exists and is non-empty, in which case every
entry of the map is copied over. -/
def viewDataFetchHeaders (p : ViewDataParams) :
    Option (List (String × Option String)) :=
  match p.fwdHeaderKeys with
  | none => none
  | some _ =>
      match p.fwdHeaderMapLookup with
      | none => none
      | some m =>
          if 0 < m.length then
            some (m.map (fun kv => (kv.1, objGet m kv.1)))
          else none

/-- Access url of DataNft.viewDataViaMVXNativeAuth: the origins are joined
with commas, space-stripped and base64-encoded; fwdHeaderKeys is appended
only inside the branch that also forwards headers, hence only when the
lookup map is non-empty. -/
def nativeAuthUrl (dataMarshal collection : String) (nonce : Nat)
    (chainID : String) (p : NativeAuthParams) : String :=
  let originsB64 :=
    btoa (((String.intercalate "," (p.mvxNativeAuthOrigins.getD [])).trim).replace " " "")
  dataMarshal ++ "/access?NFTId=" ++ collection ++ "-" ++
      numberToPaddedHex nonce ++ "&chainId=" ++
      (if chainID = "D" then "ED" else chainID) ++
      "&mvxNativeAuthEnable=1&mvxNativeAuthMaxExpirySeconds=" ++
      toString (p.mvxNativeAuthMaxExpirySeconds.getD 0) ++
      "&mvxNativeAuthOrigins=" ++ originsB64 ++
    optionalParamsSuffix p.stream p.fwdAllHeaders p.nestedIdxToStream ++
    (match p.fwdHeaderMapLookup with
      | some m =>
          if 0 < m.length then
            match p.fwdHeaderKeys with
            | some k => "&fwdHeaderKeys=" ++ k
            | none => ""
          else ""
      | none => "")

/-- Fetch headers of DataNft.viewDataViaMVXNativeAuth: when the lookup map
is non-empty the authorization entry is set first, and the remaining
entries are copied only when fwdHeaderKeys is given, skipping the
authorization key that was already set. -/
def nativeAuthFetchHeaders (m : List (String × String))
    (fwdHeaderKeys : Option String) : Option (List (String × Option String)) :=
  if 0 < m.length then
    some (("authorization", objGet m "authorization") ::
      (match fwdHeaderKeys with
        | none => []
        | some _ =>
            (m.filter (fun kv => ¬ kv.1 = "authorization")).map
              (fun kv => (kv.1, objGet m kv.1))))
  else none

/-- Modelled from the spec: checkStatus (src/common/utils, not among the
provided sources) raises an HTTP-status failure on a non-ok response; this
is the text of that failure as rendered by toString. -/
def checkStatusFailureMessage (status : Nat) : String :=
  "Error: Fetch error with status code: " ++ toString status

/-- Post-fetch handling shared verbatim by both flows: an ok response
yields the blob and content type, a failed response throws a single message
combining the status failure with the error body read as text. -/
def marshalResponseOutcome (resp : MarshalResponse) :
    Except String ViewDataReturnType :=
  if resp.ok then
    Except.ok
      { data := some resp.bodyText
        contentType := resp.contentType.getD ""
        error := none }
  else
    Except.error
      (checkStatusFailureMessage resp.status ++
        ". Detailed error trace follows : " ++ resp.bodyText)

/-- Catch-to-outcome conversion of the try/catch that closes both flows: a
thrown message becomes the error field of an empty outcome. -/
def tryCatchOutcome (body : Except String ViewDataReturnType) : ViewDataReturnType :=
  match body with
  | Except.ok v => v
  | Except.error m => { data := none, contentType := "", error := some m }

/-- Thrown message of a failed parameter validation, as formatted by both
view methods: the message list renders as its comma-joined JavaScript
string form. -/
def validationIssuesMessage (v : ValidationResult) : String :=
  "params have validation issues = " ++ String.intercalate "," v.validationMessages

/-- DataNft.viewData: the network-config check, the dataMarshal presence
check and the parameter validation run before the try block and raise; the
rest (url and header construction, fetch, status check) runs inside the try
whose catch returns an error outcome. An Except.error result models an
exception reaching the caller. -/
def viewData (dataMarshal collection : String) (nonce : Nat)
    (cfg : Option NetworkConfig) (p : ViewDataParams)
    (resp : MarshalResponse) : Except String ViewDataReturnType :=
  match cfg with
  | none => Except.error "ErrNetworkConfig"
  | some c =>
      if dataMarshal = "" then Except.error "ErrAttributeNotSet: dataMarshal"
      else
        let v := validateViewData p
        if v.allPassed = false then
          Except.error (validationIssuesMessage v)
        else
          let sr := computeSignResult p.signableMessage
          let _url := viewDataUrl dataMarshal collection nonce c.chainID p sr
          let _headers := viewDataFetchHeaders p
          Except.ok (tryCatchOutcome (marshalResponseOutcome resp))

/-- Body of DataNft.viewDataViaMVXNativeAuth, which runs entirely inside
the try block: a failed validation throws, an unset network configuration
surfaces as the TypeError of reading chainID from undefined, and otherwise
the url and headers are built and the response handled. -/
def nativeAuthBody (dataMarshal collection : String) (nonce : Nat)
    (cfg : Option NetworkConfig) (p : NativeAuthParams)
    (resp : MarshalResponse) : Except String ViewDataReturnType :=
  let v := validateNativeAuth p
  if v.allPassed = false then
    Except.error (validationIssuesMessage v)
  else
    match cfg with
    | none => Except.error "TypeError: cannot read chainID of undefined"
    | some c =>
        let _url := nativeAuthUrl dataMarshal collection nonce c.chainID p
        let _headers :=
          nativeAuthFetchHeaders (p.fwdHeaderMapLookup.getD []) p.fwdHeaderKeys
        marshalResponseOutcome resp

/-- DataNft.viewDataViaMVXNativeAuth: the whole body runs inside one
try/catch, so every failure is converted into a returned outcome and the
method never raises. -/
def viewDataViaMVXNativeAuth (dataMarshal collection : String) (nonce : Nat)
    (cfg : Option NetworkConfig) (p : NativeAuthParams)
    (resp : MarshalResponse) : Except String ViewDataReturnType :=
  Except.ok (tryCatchOutcome (nativeAuthBody dataMarshal collection nonce cfg p resp))

/-- Preaccess url of DataNft.getMessageToSign, with the inline devnet
chain-id rewrite. -/
def getMessageToSignUrl (dataMarshal chainID : String) : String :=
  dataMarshal ++ "/preaccess?chainId=" ++ (if chainID = "D" then "ED" else chainID)

/-! ## Shared helper lemmas -/

/-- Lookup in an association list with distinct keys returns the value of
the entry that contains the key. -/
theorem objGet_eq_of_nodup :
    ∀ (m : List (String × String)), (m.map Prod.fst).Nodup →
      ∀ kv : String × String, kv ∈ m → objGet m kv.1 = some kv.2 := by
  intro m
  induction m with
  | nil => intro _ kv hkv; cases hkv
  | cons a t ih =>
      intro hnd kv hkv
      rw [List.map_cons, List.nodup_cons] at hnd
      rcases List.mem_cons.mp hkv with h | h
      · subst h
        simp [objGet]
      · have hne : ¬ a.1 = kv.1 := by
          intro heq
          exact hnd.1 (heq ▸ List.mem_map_of_mem Prod.fst h)
        have := ih hnd.2 kv h
        simpa [objGet, List.find?_cons_of_neg, hne] using this

/-- A failed bearer check makes the native-auth validation gate fail. -/
theorem validateNativeAuth_fails_of_no_bearer (p : NativeAuthParams)
    (h : hasBearerAuthHeader (p.fwdHeaderMapLookup.getD []) = false) :
    (validateNativeAuth p).allPassed = false := by
  simp [validateNativeAuth, h]

/-! ## Claim theorems -/

/-- C1 counterexample: the claim states that a mint with positive tax
produces a Transaction whose receiver equals the tax token; at this
concrete input the tax is 1 yet the receiver is the minter contract
address, which differs from the anti-spam token identifier. -/
theorem mintTx_receiver_counterexample :
    (mintTx "erd1qqqminter" "1" "erd1sender" "TOKEN" "img" "meta" "marshal"
        "enc" "prev" 10 100 "My title here" "My description here" 1
        "ITHEUM-fce905").receiver = "erd1qqqminter" ∧
      ("erd1qqqminter" : String) ≠ "ITHEUM-fce905" := by
  constructor
  · rfl
  · decide

/-- C1 (amended): for every mint input, when the computed anti-spam tax is
0 the transaction payload is the bare mint call followed by the ten logical
arguments, and when the tax is greater than 0 the payload is an
ESDTTransfer-wrapped call prepending (antiSpamTokenIdentifier, antiSpamTax,
mint) to the same ten trailing arguments; in both branches the receiver is
the minter contract address (not the tax token) and the gas limit is
60,000,000. -/
theorem mintTx_shape (contractAddress chainID senderAddress : String)
    (tokenName imageOnIpfsUrl metadataOnIpfsUrl dataMarshalUrl
      dataNftStreamUrlEncrypted dataPreviewUrl : String)
    (royalties supply : Nat) (datasetTitle datasetDescription : String)
    (antiSpamTax : Int) (antiSpamTokenIdentifier : String) :
    (antiSpamTax = 0 →
      mintTx contractAddress chainID senderAddress tokenName imageOnIpfsUrl
          metadataOnIpfsUrl dataMarshalUrl dataNftStreamUrlEncrypted
          dataPreviewUrl royalties supply datasetTitle datasetDescription
          antiSpamTax antiSpamTokenIdentifier =
        { value := 0
          data :=
            { function := "mint"
              args :=
                [ Arg.str tokenName, Arg.str imageOnIpfsUrl,
                  Arg.str metadataOnIpfsUrl, Arg.str dataMarshalUrl,
                  Arg.str dataNftStreamUrlEncrypted, Arg.str dataPreviewUrl,
                  Arg.u64 royalties, Arg.u64 supply, Arg.str datasetTitle,
                  Arg.str datasetDescription ] }
          receiver := contractAddress
          sender := senderAddress
          gasLimit := 60000000
          chainID := chainID }) ∧
    (0 < antiSpamTax →
      mintTx contractAddress chainID senderAddress tokenName imageOnIpfsUrl
          metadataOnIpfsUrl dataMarshalUrl dataNftStreamUrlEncrypted
          dataPreviewUrl royalties supply datasetTitle datasetDescription
          antiSpamTax antiSpamTokenIdentifier =
        { value := 0
          data :=
            { function := "ESDTTransfer"
              args :=
                [ Arg.tokenIdentifier antiSpamTokenIdentifier,
                  Arg.bigUInt antiSpamTax, Arg.str "mint",
                  Arg.str tokenName, Arg.str imageOnIpfsUrl,
                  Arg.str metadataOnIpfsUrl, Arg.str dataMarshalUrl,
                  Arg.str dataNftStreamUrlEncrypted, Arg.str dataPreviewUrl,
                  Arg.u64 royalties, Arg.u64 supply, Arg.str datasetTitle,
                  Arg.str datasetDescription ] }
          receiver := contractAddress
          sender := senderAddress
          gasLimit := 60000000
          chainID := chainID }) := by
  constructor
  · intro h
    subst h
    simp [mintTx]
  · intro h
    simp [mintTx, h]

/-- C1 witness: the amended mint-shape theorem instantiated at a concrete
input for each branch. -/
theorem mintTx_shape_witness :
    (mintTx "erd1qqqminter" "1" "erd1sender" "TOKEN" "img" "meta" "marshal"
        "enc" "prev" 10 100 "My title here" "My description here" 0
        "ITHEUM-fce905" =
      { value := 0
        data :=
          { function := "mint"
            args :=
              [ Arg.str "TOKEN", Arg.str "img", Arg.str "meta",
                Arg.str "marshal", Arg.str "enc", Arg.str "prev",
                Arg.u64 10, Arg.u64 100, Arg.str "My title here",
                Arg.str "My description here" ] }
        receiver := "erd1qqqminter"
        sender := "erd1sender"
        gasLimit := 60000000
        chainID := "1" }) ∧
    (mintTx "erd1qqqminter" "1" "erd1sender" "TOKEN" "img" "meta" "marshal"
        "enc" "prev" 10 100 "My title here" "My description here" 1
        "ITHEUM-fce905" =
      { value := 0
        data :=
          { function := "ESDTTransfer"
            args :=
              [ Arg.tokenIdentifier "ITHEUM-fce905", Arg.bigUInt 1,
                Arg.str "mint", Arg.str "TOKEN", Arg.str "img",
                Arg.str "meta", Arg.str "marshal", Arg.str "enc",
                Arg.str "prev", Arg.u64 10, Arg.u64 100,
                Arg.str "My title here", Arg.str "My description here" ] }
        receiver := "erd1qqqminter"
        sender := "erd1sender"
        gasLimit := 60000000
        chainID := "1" }) :=
  ⟨(mintTx_shape "erd1qqqminter" "1" "erd1sender" "TOKEN" "img" "meta"
      "marshal" "enc" "prev" 10 100 "My title here" "My description here" 0
      "ITHEUM-fce905").1 rfl,
    (mintTx_shape "erd1qqqminter" "1" "erd1sender" "TOKEN" "img" "meta"
      "marshal" "enc" "prev" 10 100 "My title here" "My description here" 1
      "ITHEUM-fce905").2 (by decide)⟩

/-- C2: the addOffer end-to-end scenario produces a value-0 transaction
addressed to the sender itself whose ESDTNFTTransfer payload carries the
exact ordered argument list, with the trailing quantity equal to the
data-NFT amount argument; and leaving the minimum payment amount
unspecified is the same as passing 0. -/
theorem addOffer_scenario :
    (∀ contractAddress chainID senderAddress,
      addOffer contractAddress chainID senderAddress "DATA-X" 0 1 "USDC-1" 0
          100 (some 50) =
        { value := 0
          data :=
            { function := "ESDTNFTTransfer"
              args :=
                [ Arg.tokenIdentifier "DATA-X", Arg.u64 0, Arg.bigUInt 1,
                  Arg.addr contractAddress, Arg.str "addOffer",
                  Arg.tokenIdentifier "USDC-1", Arg.u64 0, Arg.u64 100,
                  Arg.u64 50, Arg.bigUInt 1 ] }
          receiver := senderAddress
          sender := senderAddress
          gasLimit := 12000000
          chainID := chainID }) ∧
    (∀ contractAddress chainID senderAddress dataNftIdentifier dataNftNonce
        dataNftAmount paymentTokenIdentifier paymentTokenNonce
        paymentTokenAmount,
      addOffer contractAddress chainID senderAddress dataNftIdentifier
          dataNftNonce dataNftAmount paymentTokenIdentifier paymentTokenNonce
          paymentTokenAmount none =
        addOffer contractAddress chainID senderAddress dataNftIdentifier
          dataNftNonce dataNftAmount paymentTokenIdentifier paymentTokenNonce
          paymentTokenAmount (some 0)) :=
  ⟨fun _ _ _ => rfl, fun _ _ _ _ _ _ _ _ _ => rfl⟩

/-- C8 counterexample: the claim states every direct-call operation has a
fixed gas limit of 10,000,000 or 12,000,000 independent of the inputs, but
whitelist with an extra-gas argument of 1 produces a gas limit of
10,000,001. -/
theorem whitelist_gas_counterexample :
    (whitelist "erd1qqqminter" "1" "erd1sender" [] (some 1)).gasLimit =
        10000001 ∧
      ¬((whitelist "erd1qqqminter" "1" "erd1sender" [] (some 1)).gasLimit =
            10000000 ∨
          (whitelist "erd1qqqminter" "1" "erd1sender" [] (some 1)).gasLimit =
            12000000) := by
  constructor
  · rfl
  · decide

/-- C8 (amended): every embedded direct-call operation produces a
transaction with value 0 and the contract address as receiver; the gas
limit is the fixed per-operation constant 10,000,000 (12,000,000 for
withdrawCancelledOffer), except for whitelist and delist whose gas limit is
10,000,000 plus the caller-supplied extra gas amount, which defaults to 0
for whitelist. -/
theorem directCall_tx_properties (contractAddress chainID senderAddress
      roleAddress : String) (offerId newPrice nonce : Nat)
    (sendFundsBackToOwner : Option Bool) (newMinimum : Option Nat)
    (addresses : List String) (gasExtra : Option Nat) (gasExtraD : Nat) :
    (cancelOffer contractAddress chainID senderAddress offerId
        sendFundsBackToOwner).value = 0 ∧
    (cancelOffer contractAddress chainID senderAddress offerId
        sendFundsBackToOwner).receiver = contractAddress ∧
    (cancelOffer contractAddress chainID senderAddress offerId
        sendFundsBackToOwner).gasLimit = 10000000 ∧
    (changeOfferPrice contractAddress chainID senderAddress offerId newPrice
        newMinimum).value = 0 ∧
    (changeOfferPrice contractAddress chainID senderAddress offerId newPrice
        newMinimum).receiver = contractAddress ∧
    (changeOfferPrice contractAddress chainID senderAddress offerId newPrice
        newMinimum).gasLimit = 10000000 ∧
    (withdrawCancelledOffer contractAddress chainID senderAddress
        offerId).value = 0 ∧
    (withdrawCancelledOffer contractAddress chainID senderAddress
        offerId).receiver = contractAddress ∧
    (withdrawCancelledOffer contractAddress chainID senderAddress
        offerId).gasLimit = 12000000 ∧
    (pauseContract contractAddress chainID senderAddress).value = 0 ∧
    (pauseContract contractAddress chainID senderAddress).receiver =
      contractAddress ∧
    (pauseContract contractAddress chainID senderAddress).gasLimit =
      10000000 ∧
    (unpauseContract contractAddress chainID senderAddress).value = 0 ∧
    (unpauseContract contractAddress chainID senderAddress).receiver =
      contractAddress ∧
    (unpauseContract contractAddress chainID senderAddress).gasLimit =
      10000000 ∧
    (setTransferRole contractAddress chainID senderAddress roleAddress).value =
      0 ∧
    (setTransferRole contractAddress chainID senderAddress
        roleAddress).receiver = contractAddress ∧
    (setTransferRole contractAddress chainID senderAddress
        roleAddress).gasLimit = 10000000 ∧
    (unsetTransferRole contractAddress chainID senderAddress
        roleAddress).value = 0 ∧
    (unsetTransferRole contractAddress chainID senderAddress
        roleAddress).receiver = contractAddress ∧
    (unsetTransferRole contractAddress chainID senderAddress
        roleAddress).gasLimit = 10000000 ∧
    (freeze contractAddress chainID senderAddress roleAddress).value = 0 ∧
    (freeze contractAddress chainID senderAddress roleAddress).receiver =
      contractAddress ∧
    (freeze contractAddress chainID senderAddress roleAddress).gasLimit =
      10000000 ∧
    (unfreeze contractAddress chainID senderAddress roleAddress).value = 0 ∧
    (unfreeze contractAddress chainID senderAddress roleAddress).receiver =
      contractAddress ∧
    (unfreeze contractAddress chainID senderAddress roleAddress).gasLimit =
      10000000 ∧
    (wipeSingleNFT contractAddress chainID senderAddress nonce
        roleAddress).value = 0 ∧
    (wipeSingleNFT contractAddress chainID senderAddress nonce
        roleAddress).receiver = contractAddress ∧
    (wipeSingleNFT contractAddress chainID senderAddress nonce
        roleAddress).gasLimit = 10000000 ∧
    (setAdministrator contractAddress chainID senderAddress
        roleAddress).value = 0 ∧
    (setAdministrator contractAddress chainID senderAddress
        roleAddress).receiver = contractAddress ∧
    (setAdministrator contractAddress chainID senderAddress
        roleAddress).gasLimit = 10000000 ∧
    (whitelist contractAddress chainID senderAddress addresses
        gasExtra).value = 0 ∧
    (whitelist contractAddress chainID senderAddress addresses
        gasExtra).receiver = contractAddress ∧
    (whitelist contractAddress chainID senderAddress addresses
        gasExtra).gasLimit = 10000000 + gasExtra.getD 0 ∧
    (delist contractAddress chainID senderAddress addresses
        gasExtraD).value = 0 ∧
    (delist contractAddress chainID senderAddress addresses
        gasExtraD).receiver = contractAddress ∧
    (delist contractAddress chainID senderAddress addresses
        gasExtraD).gasLimit = 10000000 + gasExtraD :=
  ⟨rfl, rfl, rfl, rfl, rfl, rfl, rfl, rfl, rfl, rfl, rfl, rfl, rfl, rfl,
    rfl, rfl, rfl, rfl, rfl, rfl, rfl, rfl, rfl, rfl, rfl, rfl, rfl, rfl,
    rfl, rfl, rfl, rfl, rfl, rfl, rfl, rfl, rfl, rfl, rfl⟩

/-- C3: in every Data Marshal request url built by getMessageToSign,
viewData and viewDataViaMVXNativeAuth, the chainId query parameter is ED
when the configured chain id is D, and the configured chain id unchanged
otherwise. -/
theorem marshal_chainId_mapping :
    (∀ dataMarshal,
      getMessageToSignUrl dataMarshal "D" =
        dataMarshal ++ "/preaccess?chainId=" ++ "ED") ∧
    (∀ dataMarshal chainID, ¬ chainID = "D" →
      getMessageToSignUrl dataMarshal chainID =
        dataMarshal ++ "/preaccess?chainId=" ++ chainID) ∧
    (∀ dataMarshal collection nonce p sr,
      viewDataUrl dataMarshal collection nonce "D" p sr =
        dataMarshal ++ "/access?nonce=" ++ p.signedMessage.getD "" ++
            "&NFTId=" ++ collection ++ "-" ++ numberToPaddedHex nonce ++
            "&signature=" ++ sr.signature ++ "&chainId=" ++ "ED" ++
            "&accessRequesterAddr=" ++ sr.addrInHex ++
          optionalParamsSuffix p.stream p.fwdAllHeaders p.nestedIdxToStream ++
          (match p.fwdHeaderKeys with
            | some k => "&fwdHeaderKeys=" ++ k
            | none => "")) ∧
    (∀ dataMarshal collection nonce chainID p sr, ¬ chainID = "D" →
      viewDataUrl dataMarshal collection nonce chainID p sr =
        dataMarshal ++ "/access?nonce=" ++ p.signedMessage.getD "" ++
            "&NFTId=" ++ collection ++ "-" ++ numberToPaddedHex nonce ++
            "&signature=" ++ sr.signature ++ "&chainId=" ++ chainID ++
            "&accessRequesterAddr=" ++ sr.addrInHex ++
          optionalParamsSuffix p.stream p.fwdAllHeaders p.nestedIdxToStream ++
          (match p.fwdHeaderKeys with
            | some k => "&fwdHeaderKeys=" ++ k
            | none => "")) ∧
    (∀ dataMarshal collection nonce p,
      nativeAuthUrl dataMarshal collection nonce "D" p =
        dataMarshal ++ "/access?NFTId=" ++ collection ++ "-" ++
            numberToPaddedHex nonce ++ "&chainId=" ++ "ED" ++
            "&mvxNativeAuthEnable=1&mvxNativeAuthMaxExpirySeconds=" ++
            toString (p.mvxNativeAuthMaxExpirySeconds.getD 0) ++
            "&mvxNativeAuthOrigins=" ++
            btoa (((String.intercalate ","
              (p.mvxNativeAuthOrigins.getD [])).trim).replace " " "") ++
          optionalParamsSuffix p.stream p.fwdAllHeaders p.nestedIdxToStream ++
          (match p.fwdHeaderMapLookup with
            | some m =>
                if 0 < m.length then
                  match p.fwdHeaderKeys with
                  | some k => "&fwdHeaderKeys=" ++ k
                  | none => ""
                else ""
            | none => "")) ∧
    (∀ dataMarshal collection nonce chainID p, ¬ chainID = "D" →
      nativeAuthUrl dataMarshal collection nonce chainID p =
        dataMarshal ++ "/access?NFTId=" ++ collection ++ "-" ++
            numberToPaddedHex nonce ++ "&chainId=" ++ chainID ++
            "&mvxNativeAuthEnable=1&mvxNativeAuthMaxExpirySeconds=" ++
            toString (p.mvxNativeAuthMaxExpirySeconds.getD 0) ++
            "&mvxNativeAuthOrigins=" ++
            btoa (((String.intercalate ","
              (p.mvxNativeAuthOrigins.getD [])).trim).replace " " "") ++
          optionalParamsSuffix p.stream p.fwdAllHeaders p.nestedIdxToStream ++
          (match p.fwdHeaderMapLookup with
            | some m =>
                if 0 < m.length then
                  match p.fwdHeaderKeys with
                  | some k => "&fwdHeaderKeys=" ++ k
                  | none => ""
                else ""
            | none => "")) := by
  refine ⟨fun dm => rfl, fun dm c h => ?_, fun dm col n p sr => rfl,
    fun dm col n c p sr h => ?_, fun dm col n p => rfl,
    fun dm col n c p h => ?_⟩
  · simp [getMessageToSignUrl, h]
  · simp [viewDataUrl, h]
  · simp [nativeAuthUrl, h]

/-- C3 witness: the chain-id mapping theorem instantiated at the devnet
chain id and at a pass-through chain id. -/
theorem marshal_chainId_mapping_witness :
    getMessageToSignUrl "https://marshal" "D" =
        "https://marshal" ++ "/preaccess?chainId=" ++ "ED" ∧
      getMessageToSignUrl "https://marshal" "1" =
        "https://marshal" ++ "/preaccess?chainId=" ++ "1" :=
  ⟨marshal_chainId_mapping.1 "https://marshal",
    marshal_chainId_mapping.2.1 "https://marshal" "1" (by decide)⟩

/-- C4: for the embedded contract query operations, a failing return code
yields an ErrContractQuery carrying the operation name and the return code
text and no domain object, while a successful return code yields the fully
decoded domain object. -/
theorem query_failure_policy :
    (∀ r : ParsedQueryResponse (List RawOffer),
      r.returnCodeIsSuccess = false →
        viewAddressListedOffersParse r =
          Except.error
            (SdkError.contractQuery "viewAddressListedOffers"
              r.returnCodeText)) ∧
    (∀ r : ParsedQueryResponse (List RawOffer),
      r.returnCodeIsSuccess = true →
        viewAddressListedOffersParse r =
          Except.ok (r.firstValue.map parseOffer)) ∧
    (∀ r : ParsedQueryResponse RawRequirements,
      r.returnCodeIsSuccess = false →
        viewRequirementsParse r =
          Except.error
            (SdkError.contractQuery "viewRequirements" r.returnCodeText)) ∧
    (∀ r : ParsedQueryResponse Bool,
      r.returnCodeIsSuccess = false →
        viewContractPauseStateParse r =
          Except.error
            (SdkError.contractQuery "viewContractPauseState"
              r.returnCodeText)) ∧
    (∀ r : ParsedQueryResponse RawUserDataOut,
      r.returnCodeIsSuccess = false →
        viewMinterRequirementsParse r =
          Except.error
            (SdkError.contractQuery "viewMinterRequirements"
              r.returnCodeText)) ∧
    (∀ r : ParsedQueryResponse RawUserDataOut,
      r.returnCodeIsSuccess = true →
        viewMinterRequirementsParse r =
          Except.ok
            { antiSpamTaxValue := r.firstValue.anti_spam_tax_value
              contractPaused := r.firstValue.is_paused
              maxRoyalties := r.firstValue.max_royalties
              minRoyalties := r.firstValue.min_royalties
              maxSupply := r.firstValue.max_supply
              mintTimeLimit := r.firstValue.mint_time_limit
              lastUserMintTime := r.firstValue.last_mint_time
              userWhitelistedForMint := r.firstValue.is_whitelisted
              contractWhitelistEnabled := r.firstValue.whitelist_enabled
              numberOfMintsForUser := r.firstValue.minted_per_user
              totalNumberOfMints := r.firstValue.total_minted
              addressFrozen := r.firstValue.frozen
              frozenNonces := r.firstValue.frozen_nonces }) := by
  refine ⟨fun r h => ?_, fun r h => ?_, fun r h => ?_, fun r h => ?_,
    fun r h => ?_, fun r h => ?_⟩
  · simp [viewAddressListedOffersParse, h]
  · simp [viewAddressListedOffersParse, h]
  · simp [viewRequirementsParse, h]
  · simp [viewContractPauseStateParse, h]
  · simp [viewMinterRequirementsParse, h]
  · simp [viewMinterRequirementsParse, h]

/-- C4 witness: the failure policy applied to a concrete failing response
and a concrete successful response. -/
theorem query_failure_policy_witness :
    viewAddressListedOffersParse
        { returnCodeIsSuccess := false
          returnCodeText := "user error"
          firstValue := [] } =
      Except.error
        (SdkError.contractQuery "viewAddressListedOffers" "user error") ∧
    viewContractPauseStateParse
        { returnCodeIsSuccess := false
          returnCodeText := "out of gas"
          firstValue := true } =
      Except.error
        (SdkError.contractQuery "viewContractPauseState" "out of gas") ∧
    viewAddressListedOffersParse
        { returnCodeIsSuccess := true
          returnCodeText := "ok"
          firstValue := [] } = Except.ok [] :=
  ⟨query_failure_policy.1
      { returnCodeIsSuccess := false, returnCodeText := "user error",
        firstValue := [] } rfl,
    query_failure_policy.2.2.2.1
      { returnCodeIsSuccess := false, returnCodeText := "out of gas",
        firstValue := true } rfl,
    query_failure_policy.2.1
      { returnCodeIsSuccess := true, returnCodeText := "ok",
        firstValue := [] } rfl⟩

/-- C9: decodeAttributes either returns the record with exactly the seven
descriptive fields, creationTime being the Unix-seconds creation_time
multiplied by 1000, or turns a codec failure into an attribute-decode error
wrapping the underlying message; no partially filled record is ever
produced. -/
theorem decodeAttributes_total :
    (∀ d : DataNftAttributes,
      decodeAttributes (Except.ok d) =
        Except.ok
          { dataPreview := d.data_preview_url
            dataStream := d.data_stream_url
            dataMarshal := d.data_marshal_url
            creator := d.creator
            creationTime := d.creation_time * 1000
            description := d.description
            title := d.title }) ∧
    (∀ m : String,
      decodeAttributes (Except.error m) =
        Except.error (SdkError.decodeAttributes m)) :=
  ⟨fun _ => rfl, fun _ => rfl⟩

/-- C5: in the native-auth flow, whenever the header lookup map is
non-empty the authorization entry of the map is attached as the first
request header; the other entries are attached exactly when fwdHeaderKeys
is supplied, the authorization key is never attached twice, and an input
whose lookup map lacks a bearer authorization entry fails validation and
returns an error outcome whose value does not depend on any marshal
response. -/
theorem nativeAuth_header_policy :
    (∀ (m : List (String × String)) (fwdHeaderKeys : Option String),
      0 < m.length →
        ∃ rest,
          nativeAuthFetchHeaders m fwdHeaderKeys =
              some (("authorization", objGet m "authorization") :: rest) ∧
            (fwdHeaderKeys = none → rest = []) ∧
            (∀ k, fwdHeaderKeys = some k →
              rest =
                (m.filter (fun kv => ¬ kv.1 = "authorization")).map
                  (fun kv => (kv.1, objGet m kv.1))) ∧
            (("authorization", objGet m "authorization") :: rest).countP
                (fun e => e.1 = "authorization") = 1) ∧
    (∀ dataMarshal collection nonce cfg p resp resp2,
      hasBearerAuthHeader (p.fwdHeaderMapLookup.getD []) = false →
        viewDataViaMVXNativeAuth dataMarshal collection nonce cfg p resp =
            Except.ok
              { data := none
                contentType := ""
                error :=
                  some (validationIssuesMessage (validateNativeAuth p)) } ∧
          viewDataViaMVXNativeAuth dataMarshal collection nonce cfg p resp =
            viewDataViaMVXNativeAuth dataMarshal collection nonce cfg p
              resp2) := by
  constructor
  · intro m fwdHeaderKeys hlen
    cases fwdHeaderKeys with
    | none =>
        refine ⟨[], ?_, ?_, ?_, ?_⟩
        · simp [nativeAuthFetchHeaders, hlen]
        · intro _; rfl
        · intro k hk; exact Option.noConfusion hk
        · simp [List.countP_cons]
    | some k =>
        refine ⟨(m.filter (fun kv => ¬ kv.1 = "authorization")).map
            (fun kv => (kv.1, objGet m kv.1)), ?_, ?_, ?_, ?_⟩
        · simp [nativeAuthFetchHeaders, hlen]
        · intro hk; exact Option.noConfusion hk
        · intro k2 _; rfl
        rw [List.countP_cons]
        have hrest :
            ((m.filter (fun kv => ¬ kv.1 = "authorization")).map
                (fun kv => (kv.1, objGet m kv.1))).countP
              (fun e => e.1 = "authorization") = 0 := by
          apply List.countP_eq_zero.mpr
          intro e he
          rcases List.mem_map.mp he with ⟨kv, hkv, rfl⟩
          have hne := (List.mem_filter.mp hkv).2
          simpa using hne
        simp [hrest]
  · intro dataMarshal collection nonce cfg p resp resp2 h
    have hall := validateNativeAuth_fails_of_no_bearer p h
    constructor
    · simp [viewDataViaMVXNativeAuth, nativeAuthBody, hall, tryCatchOutcome]
    · simp [viewDataViaMVXNativeAuth, nativeAuthBody, hall, tryCatchOutcome]

/-- C5 witness: the native-auth header policy applied to a concrete
two-entry lookup map with forwarded keys, and to a concrete parameter
object lacking the bearer entry. -/
theorem nativeAuth_header_policy_witness :
    (∃ rest,
      nativeAuthFetchHeaders
            [("authorization", "Bearer abc"), ("cookie", "c1")]
            (some "cookie,authorization") =
          some
            (("authorization",
              objGet [("authorization", "Bearer abc"), ("cookie", "c1")]
                "authorization") :: rest) ∧
        ((some "cookie,authorization" : Option String) = none → rest = []) ∧
        (∀ k, (some "cookie,authorization" : Option String) = some k →
          rest =
            ([("authorization", "Bearer abc"),
                ("cookie", "c1")].filter
                  (fun kv => ¬ kv.1 = "authorization")).map
              (fun kv =>
                (kv.1,
                  objGet [("authorization", "Bearer abc"), ("cookie", "c1")]
                    kv.1))) ∧
        (("authorization",
              objGet [("authorization", "Bearer abc"), ("cookie", "c1")]
                "authorization") :: rest).countP
            (fun e => e.1 = "authorization") = 1) ∧
    viewDataViaMVXNativeAuth "https://marshal" "DATANFT-12345" 62
        (some { chainID := "D" })
        { mvxNativeAuthOrigins := some ["http://localhost:3000"]
          mvxNativeAuthMaxExpirySeconds := some 300
          fwdHeaderMapLookup := some [("cookie", "c1")]
          fwdHeaderKeys := none
          fwdAllHeaders := none
          stream := none
          nestedIdxToStream := none }
        { ok := true, status := 200, contentType := some "application/json",
          bodyText := "data" } =
      Except.ok
        { data := none
          contentType := ""
          error :=
            some
              (validationIssuesMessage
                (validateNativeAuth
                  { mvxNativeAuthOrigins := some ["http://localhost:3000"]
                    mvxNativeAuthMaxExpirySeconds := some 300
                    fwdHeaderMapLookup := some [("cookie", "c1")]
                    fwdHeaderKeys := none
                    fwdAllHeaders := none
                    stream := none
                    nestedIdxToStream := none })) } :=
  ⟨nativeAuth_header_policy.1
      [("authorization", "Bearer abc"), ("cookie", "c1")]
      (some "cookie,authorization") (by decide),
    (nativeAuth_header_policy.2 "https://marshal" "DATANFT-12345" 62
        (some { chainID := "D" })
        { mvxNativeAuthOrigins := some ["http://localhost:3000"]
          mvxNativeAuthMaxExpirySeconds := some 300
          fwdHeaderMapLookup := some [("cookie", "c1")]
          fwdHeaderKeys := none
          fwdAllHeaders := none
          stream := none
          nestedIdxToStream := none }
        { ok := true, status := 200, contentType := some "application/json",
          bodyText := "data" }
        { ok := false, status := 500, contentType := none, bodyText := "" }
        (by decide)).1⟩

/-- C6: in the signature flow, when fwdHeaderKeys and fwdAllHeaders are
both set together with a non-empty header lookup map, the attached request
headers are exactly the entries of the lookup map and nothing else; when
fwdHeaderKeys is absent no headers are attached, whatever fwdAllHeaders
says. -/
theorem viewData_header_precedence :
    (∀ (p : ViewDataParams) (m : List (String × String)),
      p.fwdHeaderKeys.isSome = true → p.fwdAllHeaders = some true →
        p.fwdHeaderMapLookup = some m → 0 < m.length →
          (m.map Prod.fst).Nodup →
            viewDataFetchHeaders p =
              some (m.map (fun kv => (kv.1, some kv.2)))) ∧
    (∀ p : ViewDataParams, p.fwdHeaderKeys = none →
      viewDataFetchHeaders p = none) := by
  constructor
  · intro p m hks _hall hmap hlen hnd
    rcases Option.isSome_iff_exists.mp hks with ⟨k, hk⟩
    simp only [viewDataFetchHeaders, hk, hmap, hlen, if_pos]
    congr 1
    apply List.map_congr_left
    intro kv hkv
    rw [objGet_eq_of_nodup m hnd kv hkv]
  · intro p h
    simp [viewDataFetchHeaders, h]

/-- C6 witness: the header precedence theorem applied to a concrete
parameter object with both forwarding options set and a two-entry map, and
to a concrete parameter object without fwdHeaderKeys. -/
theorem viewData_header_precedence_witness :
    viewDataFetchHeaders
        { signedMessage := some "nonce"
          signableMessage := none
          stream := none
          fwdAllHeaders := some true
          fwdHeaderKeys := some "cookie,authorization"
          fwdHeaderMapLookup :=
            some [("cookie", "c1"), ("authorization", "Bearer abc")]
          nestedIdxToStream := none } =
      some [("cookie", some "c1"), ("authorization", some "Bearer abc")] ∧
    viewDataFetchHeaders
        { signedMessage := some "nonce"
          signableMessage := none
          stream := none
          fwdAllHeaders := some true
          fwdHeaderKeys := none
          fwdHeaderMapLookup :=
            some [("cookie", "c1"), ("authorization", "Bearer abc")]
          nestedIdxToStream := none } = none :=
  ⟨viewData_header_precedence.1
      { signedMessage := some "nonce"
        signableMessage := none
        stream := none
        fwdAllHeaders := some true
        fwdHeaderKeys := some "cookie,authorization"
        fwdHeaderMapLookup :=
          some [("cookie", "c1"), ("authorization", "Bearer abc")]
        nestedIdxToStream := none }
      [("cookie", "c1"), ("authorization", "Bearer abc")] rfl rfl rfl
      (by decide) (by decide),
    viewData_header_precedence.2
      { signedMessage := some "nonce"
        signableMessage := none
        stream := none
        fwdAllHeaders := some true
        fwdHeaderKeys := none
        fwdHeaderMapLookup :=
          some [("cookie", "c1"), ("authorization", "Bearer abc")]
        nestedIdxToStream := none } rfl⟩

/-- C7: in both marshal flows, a failing HTTP response produces a returned
outcome whose data is empty, whose content type is the empty string and
whose error message combines the HTTP-status failure with the error body
read as text; the failure is returned inside an ok result, not raised. -/
theorem marshal_http_failure_returned
    (dataMarshal collection : String) (nonce : Nat) (c : NetworkConfig)
    (p : ViewDataParams) (pn : NativeAuthParams) (resp : MarshalResponse) :
    resp.ok = false → ¬ dataMarshal = "" →
      (validateViewData p).allPassed = true →
        (validateNativeAuth pn).allPassed = true →
          viewData dataMarshal collection nonce (some c) p resp =
              Except.ok
                { data := none
                  contentType := ""
                  error :=
                    some
                      (checkStatusFailureMessage resp.status ++
                        ". Detailed error trace follows : " ++
                        resp.bodyText) } ∧
            viewDataViaMVXNativeAuth dataMarshal collection nonce (some c) pn
                resp =
              Except.ok
                { data := none
                  contentType := ""
                  error :=
                    some
                      (checkStatusFailureMessage resp.status ++
                        ". Detailed error trace follows : " ++
                        resp.bodyText) } := by
  intro hok hdm hv hvn
  constructor
  · simp [viewData, hdm, hv, marshalResponseOutcome, hok, tryCatchOutcome]
  · simp [viewDataViaMVXNativeAuth, nativeAuthBody, hvn,
      marshalResponseOutcome, hok, tryCatchOutcome]

/-- C7 witness: the http-failure theorem applied to a concrete failed
response with valid parameters in both flows. -/
theorem marshal_http_failure_returned_witness :
    viewData "https://marshal" "DATANFT-12345" 62 (some { chainID := "1" })
        { signedMessage := some "nonce"
          signableMessage :=
            some { signatureHex := some "aa", addressHex := some "bb" }
          stream := none
          fwdAllHeaders := none
          fwdHeaderKeys := none
          fwdHeaderMapLookup := none
          nestedIdxToStream := none }
        { ok := false, status := 403, contentType := some "application/json",
          bodyText := "denied" } =
      Except.ok
        { data := none
          contentType := ""
          error :=
            some
              (checkStatusFailureMessage 403 ++
                ". Detailed error trace follows : " ++ "denied") } :=
  (marshal_http_failure_returned "https://marshal" "DATANFT-12345" 62
      { chainID := "1" }
      { signedMessage := some "nonce"
        signableMessage :=
          some { signatureHex := some "aa", addressHex := some "bb" }
        stream := none
        fwdAllHeaders := none
        fwdHeaderKeys := none
        fwdHeaderMapLookup := none
        nestedIdxToStream := none }
      { mvxNativeAuthOrigins := some ["http://localhost:3000"]
        mvxNativeAuthMaxExpirySeconds := some 300
        fwdHeaderMapLookup := some [("authorization", "Bearer abc")]
        fwdHeaderKeys := none
        fwdAllHeaders := none
        stream := none
        nestedIdxToStream := none }
      { ok := false, status := 403, contentType := some "application/json",
        bodyText := "denied" } rfl (by decide) (by decide) (by decide)).1

/-- C10: viewDataViaMVXNativeAuth never raises: every run returns an ok
outcome, and a failed parameter validation in particular becomes an error
outcome; viewData instead raises its parameter-validation failure as an
exception and returns an ok outcome only once validation has passed. -/
theorem nativeAuth_never_raises :
    (∀ dataMarshal collection nonce cfg p resp,
      ∃ out,
        viewDataViaMVXNativeAuth dataMarshal collection nonce cfg p resp =
          Except.ok out) ∧
    (∀ dataMarshal collection nonce cfg p resp,
      (validateNativeAuth p).allPassed = false →
        viewDataViaMVXNativeAuth dataMarshal collection nonce cfg p resp =
          Except.ok
            { data := none
              contentType := ""
              error :=
                some (validationIssuesMessage (validateNativeAuth p)) }) ∧
    (∀ dataMarshal collection nonce c p resp,
      ¬ dataMarshal = "" → (validateViewData p).allPassed = false →
        viewData dataMarshal collection nonce (some c) p resp =
          Except.error (validationIssuesMessage (validateViewData p))) ∧
    (∀ dataMarshal collection nonce c p resp,
      ¬ dataMarshal = "" → (validateViewData p).allPassed = true →
        ∃ out,
          viewData dataMarshal collection nonce (some c) p resp =
            Except.ok out) := by
  refine ⟨fun dm col n cfg p resp => ⟨_, rfl⟩, fun dm col n cfg p resp h => ?_,
    fun dm col n c p resp hdm h => ?_, fun dm col n c p resp hdm h => ?_⟩
  · simp [viewDataViaMVXNativeAuth, nativeAuthBody, h, tryCatchOutcome]
  · simp [viewData, hdm, h]
  · exact ⟨tryCatchOutcome (marshalResponseOutcome resp),
      by simp [viewData, hdm, h]⟩

/-- C10 witness: the exception-policy theorem applied at concrete inputs:
a bearer-less native-auth call returning an error outcome, a viewData call
with a missing mandatory parameter raising, and a valid viewData call
returning an ok outcome. -/
theorem nativeAuth_never_raises_witness :
    viewDataViaMVXNativeAuth "https://marshal" "DATANFT-12345" 62 none
        { mvxNativeAuthOrigins := none
          mvxNativeAuthMaxExpirySeconds := none
          fwdHeaderMapLookup := none
          fwdHeaderKeys := none
          fwdAllHeaders := none
          stream := none
          nestedIdxToStream := none }
        { ok := true, status := 200, contentType := none, bodyText := "" } =
      Except.ok
        { data := none
          contentType := ""
          error :=
            some
              (validationIssuesMessage
                (validateNativeAuth
                  { mvxNativeAuthOrigins := none
                    mvxNativeAuthMaxExpirySeconds := none
                    fwdHeaderMapLookup := none
                    fwdHeaderKeys := none
                    fwdAllHeaders := none
                    stream := none
                    nestedIdxToStream := none })) } ∧
    viewData "https://marshal" "DATANFT-12345" 62 (some { chainID := "1" })
        { signedMessage := none
          signableMessage := none
          stream := none
          fwdAllHeaders := none
          fwdHeaderKeys := none
          fwdHeaderMapLookup := none
          nestedIdxToStream := none }
        { ok := true, status := 200, contentType := none, bodyText := "" } =
      Except.error
        (validationIssuesMessage
          (validateViewData
            { signedMessage := none
              signableMessage := none
              stream := none
              fwdAllHeaders := none
              fwdHeaderKeys := none
              fwdHeaderMapLookup := none
              nestedIdxToStream := none })) ∧
    (∃ out,
      viewData "https://marshal" "DATANFT-12345" 62 (some { chainID := "1" })
          { signedMessage := some "nonce"
            signableMessage :=
              some { signatureHex := some "aa", addressHex := some "bb" }
            stream := none
            fwdAllHeaders := none
            fwdHeaderKeys := none
            fwdHeaderMapLookup := none
            nestedIdxToStream := none }
          { ok := true, status := 200, contentType := none, bodyText := "" } =
        Except.ok out) :=
  ⟨nativeAuth_never_raises.2.1 "https://marshal" "DATANFT-12345" 62 none
      { mvxNativeAuthOrigins := none
        mvxNativeAuthMaxExpirySeconds := none
        fwdHeaderMapLookup := none
        fwdHeaderKeys := none
        fwdAllHeaders := none
        stream := none
        nestedIdxToStream := none }
      { ok := true, status := 200, contentType := none, bodyText := "" }
      (by decide),
    nativeAuth_never_raises.2.2.1 "https://marshal" "DATANFT-12345" 62
      { chainID := "1" }
      { signedMessage := none
        signableMessage := none
        stream := none
        fwdAllHeaders := none
        fwdHeaderKeys := none
        fwdHeaderMapLookup := none
        nestedIdxToStream := none }
      { ok := true, status := 200, contentType := none, bodyText := "" }
      (by decide) (by decide),
    nativeAuth_never_raises.2.2.2 "https://marshal" "DATANFT-12345" 62
      { chainID := "1" }
      { signedMessage := some "nonce"
        signableMessage :=
          some { signatureHex := some "aa", addressHex := some "bb" }
        stream := none
        fwdAllHeaders := none
        fwdHeaderKeys := none
        fwdHeaderMapLookup := none
        nestedIdxToStream := none }
      { ok := true, status := 200, contentType := none, bodyText := "" }
      (by decide) (by decide)⟩

end DataNftSdk
